import Mathlib

/-!
Verification development for the student-progress component of the
eduflip-learning-management backend.

The embedding follows `server/src/controllers/studentProgressController.ts`.
Each Express handler becomes a pure function from its inputs (the verified
caller identity from `getAuth`, the `userId` path parameter, the request-body
fields, the server clock reading `new Date().toISOString()` taken once per
request, and the current store contents) to a result carrying the HTTP status,
the JSON `data` payload, the store contents after the request, and the number
of store reads (`StudentProgress.get`) and writes (`progress.save()`)
performed.

The store itself (`studentProgressModel`, a dynamoose table keyed by
`userId`) is modelled from the spec: `get(userId) -> Option<StudentProgress>`
and `put(record)` overwriting the record stored under `record.userId`.
Timestamps are opaque strings; JavaScript numbers are embedded as rationals.
-/

/-- A JavaScript value as it may appear in a JSON request-body field.
`undef` models an absent field (`undefined`); NaN is not modelled. -/
inductive JSValue where
  | undef
  | null
  | str (s : String)
  | num (q : ℚ)
  | bool (b : Bool)
deriving DecidableEq, Repr

/-- JavaScript falsiness for the modelled values: `undefined`, `null`,
the empty string, `0` and `false` are falsy. -/
def JSValue.isFalsy : JSValue → Bool
  | .undef => true
  | .null => true
  | .str s => s = ""
  | .num q => q = 0
  | .bool b => !b

/-- One lesson-access event (`lessonAccessHistory` entry). -/
structure LessonAccess where
  courseId : String
  sectionId : String
  chapterId : String
  accessTimestamp : String
deriving DecidableEq, Repr

/-- One quiz-attempt event (`quizAttempts` entry).  `timeTaken` is optional
in the request body and is stored as given (possibly `undefined`). -/
structure QuizAttempt where
  quizId : String
  courseId : String
  attemptTimestamp : String
  score : ℚ
  timeTaken : Option ℚ
  completed : Bool
deriving DecidableEq, Repr

/-- One discussion-activity event (`discussionActivities` entry). -/
structure DiscussionActivity where
  courseId : String
  sectionId : Option String
  chapterId : Option String
  activityType : String
  commentId : Option String
  timestamp : String
deriving DecidableEq, Repr

/-- The per-student progress record (`StudentProgress` schema). -/
structure StudentProgress where
  userId : String
  lessonAccessHistory : List LessonAccess
  quizAttempts : List QuizAttempt
  discussionActivities : List DiscussionActivity
  lastActive : String
deriving DecidableEq, Repr

/-- Modelled from the spec: the Progress Store (`studentProgressModel`, not
part of the controller source) is a key-value table of `StudentProgress`
records addressed by exact `userId` match.  A save shadows any previous
record with the same `userId`. -/
def Store := List StudentProgress

instance : DecidableEq Store := by unfold Store; infer_instance

instance : Repr Store := by unfold Store; infer_instance

/-- Fetch `StudentProgress.get({ userId })`: the record stored under
`userId`. -/
def Store.get (s : Store) (userId : String) : Option StudentProgress :=
  List.find? (fun p => p.userId == userId) s

/-- Persist via `progress.save()`: store the full record under its own
`userId`,
shadowing the previous version. -/
def Store.save (s : Store) (p : StudentProgress) : Store :=
  p :: s

/-- Result of one of the record-returning handlers: HTTP status, the `data`
payload (the progress record, when the request succeeds), the store after
the request, and how many store reads/writes the handler performed. -/
structure HandlerOut where
  status : Nat
  data : Option StudentProgress
  store : Store
  storeReads : Nat
  storeWrites : Nat

/-- Handler for `GET /:userId` (`getStudentProgress`): after the access
gate, fetch the record, lazily creating an empty one if none exists. -/
def getStudentProgress (auth : Option String) (userId : String)
    (currentTime : String) (store : Store) : HandlerOut :=
  -- if (!auth || auth.userId !== userId) res.status(403)
  if auth ≠ some userId then
    ⟨403, none, store, 0, 0⟩
  else
    match store.get userId with
    | none =>
      -- Create initial empty progress if none exists
      let newProgress : StudentProgress := ⟨userId, [], [], [], currentTime⟩
      ⟨200, some newProgress, store.save newProgress, 1, 1⟩
    | some progress =>
      ⟨200, some progress, store, 1, 0⟩

/-- Handler for `POST /:userId/lesson-access` (`recordLessonAccess`).
Body fields arrive as strings per the route schema; JavaScript falsiness
(`!courseId`) on a string is emptiness. -/
def recordLessonAccess (auth : Option String) (userId : String)
    (courseId sectionId chapterId : String)
    (currentTime : String) (store : Store) : HandlerOut :=
  if auth ≠ some userId then
    ⟨403, none, store, 0, 0⟩
  else if courseId = "" ∨ sectionId = "" ∨ chapterId = "" then
    ⟨400, none, store, 0, 0⟩
  else
    let event : LessonAccess := ⟨courseId, sectionId, chapterId, currentTime⟩
    match store.get userId with
    | none =>
      let progress : StudentProgress := ⟨userId, [event], [], [], currentTime⟩
      ⟨200, some progress, store.save progress, 1, 1⟩
    | some prev =>
      let progress : StudentProgress :=
        { prev with
          lessonAccessHistory := prev.lessonAccessHistory ++ [event]
          lastActive := currentTime }
      ⟨200, some progress, store.save progress, 1, 1⟩

/-- The required-field check of `recordQuizAttempt`, at the JavaScript
level: `if (!quizId || !courseId || score === undefined)`.  A falsy
`quizId`/`courseId` (empty string among others) or a strictly `undefined`
`score` is rejected; `score: 0` and `score: null` pass. -/
def quizRequiredFieldsMissing (quizId courseId score : JSValue) : Bool :=
  quizId.isFalsy || courseId.isFalsy || score == JSValue.undef

/-- Handler for `POST /:userId/quiz-attempt` (`recordQuizAttempt`).
`score = none` models an `undefined` score (the only body value its
validation rejects once `quizId` and `courseId` are non-empty strings);
`completed` defaults to `true` when `undefined`. -/
def recordQuizAttempt (auth : Option String) (userId : String)
    (quizId courseId : String) (score : Option ℚ)
    (timeTaken : Option ℚ) (completed : Option Bool)
    (currentTime : String) (store : Store) : HandlerOut :=
  if auth ≠ some userId then
    ⟨403, none, store, 0, 0⟩
  else
    match score with
    | none => ⟨400, none, store, 0, 0⟩
    | some sc =>
      if quizId = "" ∨ courseId = "" then
        ⟨400, none, store, 0, 0⟩
      else
        let event : QuizAttempt :=
          ⟨quizId, courseId, currentTime, sc, timeTaken, completed.getD true⟩
        match store.get userId with
        | none =>
          let progress : StudentProgress := ⟨userId, [], [event], [], currentTime⟩
          ⟨200, some progress, store.save progress, 1, 1⟩
        | some prev =>
          let progress : StudentProgress :=
            { prev with
              quizAttempts := prev.quizAttempts ++ [event]
              lastActive := currentTime }
          ⟨200, some progress, store.save progress, 1, 1⟩

/-- The list `const validActivityTypes = ["Comment", "Reply", "Reaction"]`. -/
def validActivityTypes : List String := ["Comment", "Reply", "Reaction"]

/-- Handler for `POST /:userId/discussion-activity`
(`recordDiscussionActivity`): access gate, required-field check
(`!courseId || !activityType`), enum check, then append. -/
def recordDiscussionActivity (auth : Option String) (userId : String)
    (courseId : String) (sectionId chapterId : Option String)
    (activityType : String) (commentId : Option String)
    (currentTime : String) (store : Store) : HandlerOut :=
  if auth ≠ some userId then
    ⟨403, none, store, 0, 0⟩
  else if courseId = "" ∨ activityType = "" then
    ⟨400, none, store, 0, 0⟩
  else if ¬ (activityType ∈ validActivityTypes) then
    ⟨400, none, store, 0, 0⟩
  else
    let event : DiscussionActivity :=
      ⟨courseId, sectionId, chapterId, activityType, commentId, currentTime⟩
    match store.get userId with
    | none =>
      let progress : StudentProgress := ⟨userId, [], [], [event], currentTime⟩
      ⟨200, some progress, store.save progress, 1, 1⟩
    | some prev =>
      let progress : StudentProgress :=
        { prev with
          discussionActivities := prev.discussionActivities ++ [event]
          lastActive := currentTime }
      ⟨200, some progress, store.save progress, 1, 1⟩

/-- The Set key `` `${courseId}:${sectionId}:${chapterId}` `` used by
`uniqueLessonsAccessed`. -/
def lessonKey (a : LessonAccess) : String :=
  a.courseId ++ ":" ++ a.sectionId ++ ":" ++ a.chapterId

/-- The update `frequency[value] = (frequency[value] || 0) + 1` on a plain-object
frequency table, modelled as an association list: an existing key keeps its
position, a new key is appended (JavaScript property creation order). -/
def bumpFreq (l : List (String × Nat)) (v : String) : List (String × Nat) :=
  if l.any (fun e => e.1 = v) then
    l.map (fun e => if e.1 = v then (e.1, e.2 + 1) else e)
  else
    l ++ [(v, 1)]

/-- The frequency table after `array.forEach(...)` in `getTopItems`. -/
def buildFreq (vals : List String) : List (String × Nat) :=
  vals.foldl bumpFreq []

/-- Numeric value of a decimal digit string. -/
def digitsToNat (l : List Char) : Nat :=
  l.foldl (fun n c => n * 10 + (c.toNat - 48)) 0

/-- Whether a character list is the canonical decimal form of a natural
number: non-empty, all digits, and no leading zero unless it is `"0"`. -/
def isCanonicalDigits : List Char → Bool
  | [] => false
  | [c] => c.isDigit
  | c :: rest => c.isDigit && c != '0' && rest.all Char.isDigit

/-- Whether a string is an ECMAScript array-index property key: the
canonical decimal form of an integer `0 ≤ n < 2^32 - 1`.  Such keys are
enumerated by `Object.entries` before all other string keys, in ascending
numeric order. -/
def isArrayIndexString (s : String) : Bool :=
  isCanonicalDigits s.data && digitsToNat s.data < 2 ^ 32 - 1

/-- Numeric value of an array-index key (meaningful only on such keys). -/
def arrayIndexVal (s : String) : Nat :=
  digitsToNat s.data

/-- Stable insertion of an entry into a list sorted ascending by
array-index value. -/
def insertByIndexAsc (a : String × Nat) :
    List (String × Nat) → List (String × Nat)
  | [] => [a]
  | b :: l =>
    if arrayIndexVal a.1 ≤ arrayIndexVal b.1 then a :: b :: l
    else b :: insertByIndexAsc a l

/-- Sort entries ascending by array-index value (used only on the
array-index keys, which are pairwise distinct in a frequency table). -/
def sortByIndexAsc : List (String × Nat) → List (String × Nat)
  | [] => []
  | a :: l => insertByIndexAsc a (sortByIndexAsc l)

/-- Enumeration order of `Object.entries` on a plain object per ECMAScript
OrdinaryOwnPropertyKeys: array-index keys first, ascending numerically,
then the remaining string keys in property creation order. -/
def jsObjectEntries (l : List (String × Nat)) : List (String × Nat) :=
  sortByIndexAsc (l.filter (fun e => isArrayIndexString e.1))
    ++ l.filter (fun e => !isArrayIndexString e.1)

/-- One `{value, count}` entry of `mostAccessedCourses`. -/
structure CourseCount where
  value : String
  count : Nat
deriving DecidableEq, Repr

/-- Stable insertion into a list sorted descending by `count`: an element
goes before the first entry whose count does not exceed its own, so that
equal counts keep their prior relative order. -/
def insertByCountDesc (a : CourseCount) :
    List CourseCount → List CourseCount
  | [] => [a]
  | b :: l =>
    if b.count ≤ a.count then a :: b :: l
    else b :: insertByCountDesc a l

/-- The call `.sort((a, b) => b.count - a.count)`: JavaScript sort is stable
(ES2019), and a stable sort under a total preorder has a unique result, so
this stable insertion sort computes the same list. -/
def sortByCountDesc : List CourseCount → List CourseCount
  | [] => []
  | a :: l => insertByCountDesc a (sortByCountDesc l)

/-- Helper `getTopItems(array, key, limit)`: frequency-count the key values,
convert to `{value, count}` entries via `Object.entries`, sort by count
descending, and truncate to `limit`. -/
def getTopItems (array : List α) (key : α → String) (limit : Nat) :
    List CourseCount :=
  let frequency := buildFreq (array.map key)
  (sortByCountDesc ((jsObjectEntries frequency).map
    (fun e => CourseCount.mk e.1 e.2))).take limit

/-- The `discussionBreakdown` object. -/
structure DiscussionBreakdown where
  comments : Nat
  replies : Nat
  reactions : Nat
deriving DecidableEq, Repr

/-- The statistics object computed by `getStudentStatistics`. -/
structure Statistics where
  totalLessonsAccessed : Nat
  uniqueLessonsAccessed : Nat
  totalQuizAttempts : Nat
  uniqueQuizAttempts : Nat
  averageQuizScore : ℚ
  totalDiscussionActivities : Nat
  discussionBreakdown : DiscussionBreakdown
  mostAccessedCourses : List CourseCount
  lastActive : String
deriving DecidableEq, Repr

/-- The `stats` object literal inside `getStudentStatistics`.  `new
Set(list).size` is the number of distinct elements (`dedup` length);
`reduce((sum, a) => sum + a.score, 0)` is a left fold. -/
def computeStats (progress : StudentProgress) : Statistics where
  totalLessonsAccessed := progress.lessonAccessHistory.length
  uniqueLessonsAccessed :=
    ((progress.lessonAccessHistory.map lessonKey).dedup).length
  totalQuizAttempts := progress.quizAttempts.length
  uniqueQuizAttempts :=
    ((progress.quizAttempts.map (fun a => a.quizId)).dedup).length
  averageQuizScore :=
    if progress.quizAttempts.length > 0 then
      (progress.quizAttempts.foldl (fun sum a => sum + a.score) 0)
        / (progress.quizAttempts.length : ℚ)
    else 0
  totalDiscussionActivities := progress.discussionActivities.length
  discussionBreakdown :=
    ⟨(progress.discussionActivities.filter
        (fun a => a.activityType = "Comment")).length,
      (progress.discussionActivities.filter
        (fun a => a.activityType = "Reply")).length,
      (progress.discussionActivities.filter
        (fun a => a.activityType = "Reaction")).length⟩
  mostAccessedCourses :=
    getTopItems progress.lessonAccessHistory (fun a => a.courseId) 5
  lastActive := progress.lastActive

/-- Result of the statistics handler: status, the stats payload, the store
after the request, and the number of store reads (it never writes). -/
structure StatsOut where
  status : Nat
  stats : Option Statistics
  store : Store
  storeReads : Nat
deriving DecidableEq, Repr

/-- Handler for `GET /:userId/statistics` (`getStudentStatistics`): access
gate, fetch, 404 when no record exists, otherwise the computed stats. -/
def getStudentStatistics (auth : Option String) (userId : String)
    (store : Store) : StatsOut :=
  if auth ≠ some userId then
    ⟨403, none, store, 0⟩
  else
    match store.get userId with
    | none => ⟨404, none, store, 1⟩
    | some progress => ⟨200, some (computeStats progress), store, 1⟩

/-- Follows the spec's words: the number of distinct
`(courseId, sectionId, chapterId)` triples across `lessonAccessHistory`. -/
def specUniqueLessonTriples (progress : StudentProgress) : Nat :=
  ((progress.lessonAccessHistory.map
    (fun a => (a.courseId, a.sectionId, a.chapterId))).dedup).length

/-- Follows the spec's words: `courseId` values ranked by descending
access frequency, equal-frequency ties in order of first appearance in
`lessonAccessHistory`, truncated to the top 5.  The frequency table lists
each distinct `courseId` at its first appearance, and a stable descending
sort keeps that order among ties. -/
def specMostAccessedCourses (progress : StudentProgress) :
    List CourseCount :=
  (sortByCountDesc
    ((buildFreq (progress.lessonAccessHistory.map (fun a => a.courseId))).map
      (fun e => CourseCount.mk e.1 e.2))).take 5

/-- Whether every access in `lessonAccessHistory` has a colon-free
`courseId` and `sectionId` (under which the `courseId:sectionId:chapterId`
Set key determines the triple). -/
def colonFreeIds (progress : StudentProgress) : Bool :=
  progress.lessonAccessHistory.all (fun a =>
    a.courseId.data.all (fun c => c != ':')
      && a.sectionId.data.all (fun c => c != ':'))

/-- Whether no `courseId` in `lessonAccessHistory` is an array-index string
(under which `Object.entries` enumerates the frequency table in insertion
order, i.e. order of first appearance). -/
def nonIndexCourseIds (progress : StudentProgress) : Bool :=
  progress.lessonAccessHistory.all (fun a => !isArrayIndexString a.courseId)

/-! ### Store lemmas -/

theorem Store.get_save_self {s : Store} {p : StudentProgress} {u : String}
    (h : p.userId = u) : (s.save p).get u = some p := by
  simp [Store.get, Store.save, List.find?, h]

theorem Store.get_userId {s : Store} {u : String} {p : StudentProgress}
    (h : s.get u = some p) : p.userId = u := by
  have := List.find?_some h
  simpa using this

/-! ### Distinct-count and key-injectivity lemmas -/

theorem dedup_length_map_of_injOn {α β : Type} [DecidableEq α] [DecidableEq β]
    {f : α → β} (l : List α) (h : ∀ a ∈ l, ∀ b ∈ l, f a = f b → a = b) :
    ((l.map f).dedup).length = l.dedup.length := by
  induction l with
  | nil => rfl
  | cons a t ih =>
    have ht : ∀ x ∈ t, ∀ y ∈ t, f x = f y → x = y :=
      fun x hx y hy => h x (List.mem_cons_of_mem _ hx) y (List.mem_cons_of_mem _ hy)
    by_cases hmem : a ∈ t
    · rw [List.map_cons, List.dedup_cons_of_mem (List.mem_map_of_mem f hmem),
        List.dedup_cons_of_mem hmem]
      exact ih ht
    · have hf : f a ∉ t.map f := by
        intro hc
        obtain ⟨b, hb, hfb⟩ := List.mem_map.mp hc
        exact hmem ((h b (List.mem_cons_of_mem _ hb) a (List.mem_cons_self a t) hfb) ▸ hb)
      rw [List.map_cons, List.dedup_cons_of_not_mem hf, List.dedup_cons_of_not_mem hmem]
      simp [ih ht]

theorem colon_split (as : List Char) : ∀ (bs r r' : List Char), ':' ∉ as → ':' ∉ bs →
    as ++ ':' :: r = bs ++ ':' :: r' → as = bs ∧ r = r' := by
  induction as with
  | nil =>
    intro bs r r' _ hb h
    cases bs with
    | nil => simpa using h
    | cons b bt =>
      simp only [List.nil_append, List.cons_append, List.cons.injEq] at h
      obtain ⟨h1, -⟩ := h
      subst h1
      exact absurd (List.mem_cons_self _ _) hb
  | cons a at' ih =>
    intro bs r r' ha hb h
    cases bs with
    | nil =>
      simp only [List.nil_append, List.cons_append, List.cons.injEq] at h
      obtain ⟨h1, -⟩ := h
      subst h1
      exact absurd (List.mem_cons_self _ _) ha
    | cons b bt =>
      simp only [List.cons_append, List.cons.injEq] at h
      obtain ⟨hab, ht⟩ := h
      obtain ⟨h1, h2⟩ := ih bt r r' (fun hc => ha (List.mem_cons_of_mem _ hc))
        (fun hc => hb (List.mem_cons_of_mem _ hc)) ht
      exact ⟨by rw [hab, h1], h2⟩

theorem colon_join_inj {c s ch c' s' ch' : String}
    (hc : ':' ∉ c.data) (hs : ':' ∉ s.data)
    (hc' : ':' ∉ c'.data) (hs' : ':' ∉ s'.data)
    (h : c ++ ":" ++ s ++ ":" ++ ch = c' ++ ":" ++ s' ++ ":" ++ ch') :
    c = c' ∧ s = s' ∧ ch = ch' := by
  have hd := congrArg String.data h
  simp only [String.data_append, List.append_assoc, List.singleton_append] at hd
  obtain ⟨h1, h2⟩ := colon_split c.data c'.data _ _ hc hc' hd
  obtain ⟨h3, h4⟩ := colon_split s.data s'.data _ _ hs hs' h2
  exact ⟨String.ext h1, String.ext h3, String.ext h4⟩

/-! ### Frequency-table and fold lemmas -/

theorem foldl_add_score (l : List QuizAttempt) (init : ℚ) :
    l.foldl (fun sum a => sum + a.score) init
      = init + (l.map (fun a => a.score)).sum := by
  induction l generalizing init with
  | nil => simp
  | cons a t ih => simp [ih, add_assoc]

theorem bumpFreq_keys {l : List (String × Nat)} {v : String} :
    ∀ e ∈ bumpFreq l v, e.1 = v ∨ e.1 ∈ l.map Prod.fst := by
  intro e he
  unfold bumpFreq at he
  split at he
  · obtain ⟨x, hx, hxe⟩ := List.mem_map.mp he
    right
    have hex : e.1 = x.1 := by
      by_cases hxv : x.1 = v
      · simp [hxv] at hxe
        simp [← hxe, hxv]
      · simp [hxv] at hxe
        simp [← hxe]
    rw [hex]
    exact List.mem_map_of_mem Prod.fst hx
  · rcases List.mem_append.mp he with h | h
    · right; exact List.mem_map_of_mem Prod.fst h
    · left
      simp only [List.mem_singleton] at h
      simp [h]

theorem buildFreq_keys_aux (P : String → Prop) :
    ∀ (vals : List String) (acc : List (String × Nat)),
      (∀ e ∈ acc, P e.1) → (∀ v ∈ vals, P v) →
      ∀ e ∈ vals.foldl bumpFreq acc, P e.1 := by
  intro vals
  induction vals with
  | nil => intro acc hacc _ e he; exact hacc e he
  | cons v t ih =>
    intro acc hacc hvals e he
    simp only [List.foldl_cons] at he
    refine ih (bumpFreq acc v) ?_ (fun x hx => hvals x (List.mem_cons_of_mem _ hx)) e he
    intro x hx
    rcases bumpFreq_keys x hx with h | h
    · rw [h]; exact hvals v (List.mem_cons_self v t)
    · obtain ⟨y, hy, hyx⟩ := List.mem_map.mp h
      rw [← hyx]; exact hacc y hy

theorem buildFreq_keys (P : String → Prop) (vals : List String)
    (hvals : ∀ v ∈ vals, P v) : ∀ e ∈ buildFreq vals, P e.1 :=
  buildFreq_keys_aux P vals [] (by intro e he; cases he) hvals

theorem jsObjectEntries_eq_self {l : List (String × Nat)}
    (h : ∀ e ∈ l, isArrayIndexString e.1 = false) :
    jsObjectEntries l = l := by
  unfold jsObjectEntries
  have h1 : l.filter (fun e => isArrayIndexString e.1) = [] :=
    List.filter_eq_nil_iff.mpr (by intro e he; simp [h e he])
  have h2 : l.filter (fun e => !isArrayIndexString e.1) = l :=
    List.filter_eq_self.mpr (by intro e he; simp [h e he])
  rw [h1, h2]
  rfl

theorem getTopItems_no_index {α : Type} (array : List α) (key : α → String)
    (limit : Nat)
    (h : ∀ v ∈ array.map key, isArrayIndexString v = false) :
    getTopItems array key limit
      = (sortByCountDesc ((buildFreq (array.map key)).map
          (fun e => CourseCount.mk e.1 e.2))).take limit := by
  simp only [getTopItems]
  rw [jsObjectEntries_eq_self
    (buildFreq_keys (fun v => isArrayIndexString v = false) _ h)]

/-! ### Claims -/

/-- C6: For every one of the five /progress routes, if the caller's verified
identity is absent or differs from the path userId, the request is rejected
with status 403 and no store read or write is performed, so the stored state
is unchanged. -/
theorem claim_C6_access_gate
    (auth : Option String) (userId : String) (store : Store)
    (hauth : auth ≠ some userId) :
    (∀ currentTime, getStudentProgress auth userId currentTime store
        = ⟨403, none, store, 0, 0⟩)
    ∧ (∀ courseId sectionId chapterId currentTime,
        recordLessonAccess auth userId courseId sectionId chapterId
            currentTime store
          = ⟨403, none, store, 0, 0⟩)
    ∧ (∀ quizId courseId score timeTaken completed currentTime,
        recordQuizAttempt auth userId quizId courseId score timeTaken
            completed currentTime store
          = ⟨403, none, store, 0, 0⟩)
    ∧ (∀ courseId sectionId chapterId activityType commentId currentTime,
        recordDiscussionActivity auth userId courseId sectionId chapterId
            activityType commentId currentTime store
          = ⟨403, none, store, 0, 0⟩)
    ∧ getStudentStatistics auth userId store = ⟨403, none, store, 0⟩ := by
  refine ⟨?_, ?_, ?_, ?_, ?_⟩ <;>
    intros <;>
    simp [getStudentProgress, recordLessonAccess, recordQuizAttempt,
      recordDiscussionActivity, getStudentStatistics, hauth]

/-- Witness for C6 at `auth = none`, `userId = "u"`, the empty store. -/
theorem claim_C6_access_gate_witness :
    getStudentProgress none "u" "2024-01-01" ([] : Store)
        = ⟨403, none, ([] : Store), 0, 0⟩
    ∧ getStudentStatistics none "u" ([] : Store)
        = ⟨403, none, ([] : Store), 0⟩ :=
  ⟨(claim_C6_access_gate none "u" [] (by decide)).1 "2024-01-01",
    (claim_C6_access_gate none "u" [] (by decide)).2.2.2.2⟩

/-- C7: For every discussion-activity submission by an authorized caller
whose activityType is not one of Comment, Reply, Reaction (for example
"Invalid"), the request fails with status 400 before any store access (zero
store reads and writes), and the stored state for that userId is unchanged. -/
theorem claim_C7_invalid_activity_type
    (userId courseId : String) (sectionId chapterId : Option String)
    (activityType : String) (commentId : Option String)
    (currentTime : String) (store : Store)
    (hbad : activityType ∉ validActivityTypes) :
    recordDiscussionActivity (some userId) userId courseId sectionId chapterId
        activityType commentId currentTime store
      = ⟨400, none, store, 0, 0⟩ := by
  by_cases hempty : courseId = "" ∨ activityType = ""
  · simp [recordDiscussionActivity, hempty]
  · simp [recordDiscussionActivity, hempty, hbad]

/-- Witness for C7 at `activityType = "Invalid"`. -/
theorem claim_C7_invalid_activity_type_witness :
    "Invalid" ∉ validActivityTypes
    ∧ recordDiscussionActivity (some "u") "u" "c1" none none "Invalid" none
        "2024-01-01" ([] : Store)
      = ⟨400, none, ([] : Store), 0, 0⟩ :=
  ⟨by decide,
    claim_C7_invalid_activity_type "u" "c1" none none "Invalid" none
      "2024-01-01" [] (by decide)⟩

/-- C8: For every statistics request by an authorized caller, the response
is 404 if and only if no progress record exists for that userId; when a
record exists the response is 200 with the statistics object, and in neither
case is the store modified. -/
theorem claim_C8_statistics_read
    (auth : Option String) (userId : String) (store : Store)
    (hauth : auth = some userId) :
    ((getStudentStatistics auth userId store).status = 404
      ↔ store.get userId = none)
    ∧ (∀ p, store.get userId = some p →
        (getStudentStatistics auth userId store).status = 200
        ∧ (getStudentStatistics auth userId store).stats
            = some (computeStats p))
    ∧ (getStudentStatistics auth userId store).store = store := by
  subst hauth
  cases hget : store.get userId <;>
    simp [getStudentStatistics, hget]

/-- Witness for C8: a store holding one record for "u". -/
theorem claim_C8_statistics_read_witness :
    (some "u" : Option String) = some "u"
    ∧ ((getStudentStatistics (some "u") "u"
          ([⟨"u", [], [], [], "t0"⟩] : Store)).status = 404
        ↔ Store.get ([⟨"u", [], [], [], "t0"⟩] : Store) "u" = none) :=
  ⟨rfl, (claim_C8_statistics_read (some "u") "u" [⟨"u", [], [], [], "t0"⟩] rfl).1⟩

/-- C9: For every GET /:userId request by an authorized caller when no
progress record exists, the handler creates and persists a new record with
that userId, all three event logs empty, and lastActive set to the current
time, and returns it with status 200. -/
theorem claim_C9_lazy_init
    (userId currentTime : String) (store : Store)
    (hnone : store.get userId = none) :
    getStudentProgress (some userId) userId currentTime store
      = ⟨200, some ⟨userId, [], [], [], currentTime⟩,
          store.save ⟨userId, [], [], [], currentTime⟩, 1, 1⟩
    ∧ (store.save ⟨userId, [], [], [], currentTime⟩).get userId
        = some ⟨userId, [], [], [], currentTime⟩ := by
  constructor
  · simp [getStudentProgress, hnone]
  · exact Store.get_save_self rfl

/-- Witness for C9 at the empty store. -/
theorem claim_C9_lazy_init_witness :
    Store.get ([] : Store) "u" = none
    ∧ getStudentProgress (some "u") "u" "2024-01-01" ([] : Store)
        = ⟨200, some ⟨"u", [], [], [], "2024-01-01"⟩,
            Store.save ([] : Store) ⟨"u", [], [], [], "2024-01-01"⟩, 1, 1⟩ :=
  ⟨rfl, (claim_C9_lazy_init "u" "2024-01-01" [] rfl).1⟩

/-- C1: For every valid event submission (lesson-access, quiz-attempt, or
discussion-activity) by an authorized caller against an existing progress
record, the persisted record after the operation has a target log whose
length is exactly one greater than before, and whose last element is the
submitted event carrying the server-assigned timestamp computed once for
that request (the single `currentTime` of the request). -/
theorem claim_C1_append_event
    (auth : Option String) (userId currentTime : String) (store : Store)
    (prev : StudentProgress)
    (hauth : auth = some userId)
    (hprev : store.get userId = some prev) :
    (∀ courseId sectionId chapterId : String,
      courseId ≠ "" → sectionId ≠ "" → chapterId ≠ "" →
      ∃ p, Store.get ((recordLessonAccess auth userId courseId sectionId
              chapterId currentTime store).store) userId = some p
        ∧ p.lessonAccessHistory.length = prev.lessonAccessHistory.length + 1
        ∧ p.lessonAccessHistory.getLast?
            = some ⟨courseId, sectionId, chapterId, currentTime⟩)
    ∧ (∀ (quizId courseId : String) (sc : ℚ) (timeTaken : Option ℚ)
          (completed : Option Bool),
        quizId ≠ "" → courseId ≠ "" →
        ∃ p, Store.get ((recordQuizAttempt auth userId quizId courseId
                (some sc) timeTaken completed currentTime store).store) userId
            = some p
          ∧ p.quizAttempts.length = prev.quizAttempts.length + 1
          ∧ p.quizAttempts.getLast?
              = some ⟨quizId, courseId, currentTime, sc, timeTaken,
                  completed.getD true⟩)
    ∧ (∀ (courseId : String) (sectionId chapterId : Option String)
          (activityType : String) (commentId : Option String),
        courseId ≠ "" → activityType ∈ validActivityTypes →
        ∃ p, Store.get ((recordDiscussionActivity auth userId courseId
                sectionId chapterId activityType commentId currentTime
                store).store) userId = some p
          ∧ p.discussionActivities.length
              = prev.discussionActivities.length + 1
          ∧ p.discussionActivities.getLast?
              = some ⟨courseId, sectionId, chapterId, activityType, commentId,
                  currentTime⟩) := by
  subst hauth
  have huid : prev.userId = userId := Store.get_userId hprev
  refine ⟨?_, ?_, ?_⟩
  · intro courseId sectionId chapterId h1 h2 h3
    have hred : recordLessonAccess (some userId) userId courseId sectionId
        chapterId currentTime store
        = ⟨200,
            some ({ prev with
              lessonAccessHistory := prev.lessonAccessHistory
                ++ [⟨courseId, sectionId, chapterId, currentTime⟩],
              lastActive := currentTime }),
            store.save ({ prev with
              lessonAccessHistory := prev.lessonAccessHistory
                ++ [⟨courseId, sectionId, chapterId, currentTime⟩],
              lastActive := currentTime }), 1, 1⟩ := by
      simp [recordLessonAccess, h1, h2, h3, hprev]
    rw [hred]
    exact ⟨_, Store.get_save_self huid, by simp, by simp⟩
  · intro quizId courseId sc timeTaken completed h1 h2
    have hred : recordQuizAttempt (some userId) userId quizId courseId
        (some sc) timeTaken completed currentTime store
        = ⟨200,
            some ({ prev with
              quizAttempts := prev.quizAttempts
                ++ [⟨quizId, courseId, currentTime, sc, timeTaken,
                      completed.getD true⟩],
              lastActive := currentTime }),
            store.save ({ prev with
              quizAttempts := prev.quizAttempts
                ++ [⟨quizId, courseId, currentTime, sc, timeTaken,
                      completed.getD true⟩],
              lastActive := currentTime }), 1, 1⟩ := by
      simp [recordQuizAttempt, h1, h2, hprev]
    rw [hred]
    exact ⟨_, Store.get_save_self huid, by simp, by simp⟩
  · intro courseId sectionId chapterId activityType commentId h1 h2
    have hne : activityType ≠ "" := by
      intro hc
      rw [hc] at h2
      simp [validActivityTypes] at h2
    have hred : recordDiscussionActivity (some userId) userId courseId
        sectionId chapterId activityType commentId currentTime store
        = ⟨200,
            some ({ prev with
              discussionActivities := prev.discussionActivities
                ++ [⟨courseId, sectionId, chapterId, activityType, commentId,
                      currentTime⟩],
              lastActive := currentTime }),
            store.save ({ prev with
              discussionActivities := prev.discussionActivities
                ++ [⟨courseId, sectionId, chapterId, activityType, commentId,
                      currentTime⟩],
              lastActive := currentTime }), 1, 1⟩ := by
      simp [recordDiscussionActivity, h1, hne, h2, hprev]
    rw [hred]
    exact ⟨_, Store.get_save_self huid, by simp, by simp⟩

/-- Witness for C1: one lesson access appended to an existing one-access
record for "u". -/
theorem claim_C1_append_event_witness :
    (some "u" : Option String) = some "u"
    ∧ Store.get ([⟨"u", [⟨"c0", "s0", "ch0", "t0"⟩], [], [], "t0"⟩] : Store)
        "u" = some ⟨"u", [⟨"c0", "s0", "ch0", "t0"⟩], [], [], "t0"⟩
    ∧ ∃ p, Store.get ((recordLessonAccess (some "u") "u" "c1" "s1" "ch1" "t1"
          ([⟨"u", [⟨"c0", "s0", "ch0", "t0"⟩], [], [], "t0"⟩] : Store)).store)
          "u" = some p
        ∧ p.lessonAccessHistory.length
            = (⟨"u", [⟨"c0", "s0", "ch0", "t0"⟩], [], [], "t0"⟩
                : StudentProgress).lessonAccessHistory.length + 1
        ∧ p.lessonAccessHistory.getLast? = some ⟨"c1", "s1", "ch1", "t1"⟩ :=
  ⟨rfl, rfl,
    (claim_C1_append_event (some "u") "u" "t1"
        [⟨"u", [⟨"c0", "s0", "ch0", "t0"⟩], [], [], "t0"⟩]
        ⟨"u", [⟨"c0", "s0", "ch0", "t0"⟩], [], [], "t0"⟩ rfl rfl).1
      "c1" "s1" "ch1" (by decide) (by decide) (by decide)⟩

/-- C4: For every userId with no existing progress record, a valid first
event submission of any of the three kinds creates and persists a record
whose target log contains exactly that one event, whose other two logs are
empty sequences, and whose lastActive equals that event's timestamp. -/
theorem claim_C4_first_event_creates
    (auth : Option String) (userId currentTime : String) (store : Store)
    (hauth : auth = some userId)
    (hnone : store.get userId = none) :
    (∀ courseId sectionId chapterId : String,
      courseId ≠ "" → sectionId ≠ "" → chapterId ≠ "" →
      Store.get ((recordLessonAccess auth userId courseId sectionId chapterId
          currentTime store).store) userId
        = some ⟨userId, [⟨courseId, sectionId, chapterId, currentTime⟩],
            [], [], currentTime⟩)
    ∧ (∀ (quizId courseId : String) (sc : ℚ) (timeTaken : Option ℚ)
          (completed : Option Bool),
        quizId ≠ "" → courseId ≠ "" →
        Store.get ((recordQuizAttempt auth userId quizId courseId (some sc)
            timeTaken completed currentTime store).store) userId
          = some ⟨userId, [],
              [⟨quizId, courseId, currentTime, sc, timeTaken,
                  completed.getD true⟩], [], currentTime⟩)
    ∧ (∀ (courseId : String) (sectionId chapterId : Option String)
          (activityType : String) (commentId : Option String),
        courseId ≠ "" → activityType ∈ validActivityTypes →
        Store.get ((recordDiscussionActivity auth userId courseId sectionId
            chapterId activityType commentId currentTime store).store) userId
          = some ⟨userId, [], [],
              [⟨courseId, sectionId, chapterId, activityType, commentId,
                  currentTime⟩], currentTime⟩) := by
  subst hauth
  refine ⟨?_, ?_, ?_⟩
  · intro courseId sectionId chapterId h1 h2 h3
    have hred : recordLessonAccess (some userId) userId courseId sectionId
        chapterId currentTime store
        = ⟨200,
            some ⟨userId, [⟨courseId, sectionId, chapterId, currentTime⟩],
              [], [], currentTime⟩,
            store.save ⟨userId,
              [⟨courseId, sectionId, chapterId, currentTime⟩], [], [],
              currentTime⟩, 1, 1⟩ := by
      simp [recordLessonAccess, h1, h2, h3, hnone]
    rw [hred]
    exact Store.get_save_self rfl
  · intro quizId courseId sc timeTaken completed h1 h2
    have hred : recordQuizAttempt (some userId) userId quizId courseId
        (some sc) timeTaken completed currentTime store
        = ⟨200,
            some ⟨userId, [],
              [⟨quizId, courseId, currentTime, sc, timeTaken,
                  completed.getD true⟩], [], currentTime⟩,
            store.save ⟨userId, [],
              [⟨quizId, courseId, currentTime, sc, timeTaken,
                  completed.getD true⟩], [], currentTime⟩, 1, 1⟩ := by
      simp [recordQuizAttempt, h1, h2, hnone]
    rw [hred]
    exact Store.get_save_self rfl
  · intro courseId sectionId chapterId activityType commentId h1 h2
    have hne : activityType ≠ "" := by
      intro hc
      rw [hc] at h2
      simp [validActivityTypes] at h2
    have hred : recordDiscussionActivity (some userId) userId courseId
        sectionId chapterId activityType commentId currentTime store
        = ⟨200,
            some ⟨userId, [], [],
              [⟨courseId, sectionId, chapterId, activityType, commentId,
                  currentTime⟩], currentTime⟩,
            store.save ⟨userId, [], [],
              [⟨courseId, sectionId, chapterId, activityType, commentId,
                  currentTime⟩], currentTime⟩, 1, 1⟩ := by
      simp [recordDiscussionActivity, h1, hne, h2, hnone]
    rw [hred]
    exact Store.get_save_self rfl

/-- Witness for C4: first quiz attempt for "u" on the empty store. -/
theorem claim_C4_first_event_creates_witness :
    (some "u" : Option String) = some "u"
    ∧ Store.get ([] : Store) "u" = none
    ∧ Store.get ((recordQuizAttempt (some "u") "u" "q1" "c1" (some 85) none
          none "t1" ([] : Store)).store) "u"
        = some ⟨"u", [], [⟨"q1", "c1", "t1", 85, none, true⟩], [], "t1"⟩ :=
  ⟨rfl, rfl,
    (claim_C4_first_event_creates (some "u") "u" "t1" [] rfl rfl).2.1
      "q1" "c1" 85 none none (by decide) (by decide)⟩

/-- C10: recordQuizAttempt rejects a request with status 400 exactly when
quizId is falsy, courseId is falsy, or score is strictly undefined: a
numeric score of 0 passes validation and is appended, a score of null
passes the validation check, and an empty-string quizId or courseId is
treated as missing and rejected. -/
theorem claim_C10_quiz_validation
    (userId quizId courseId : String) (score : Option ℚ)
    (timeTaken : Option ℚ) (completed : Option Bool)
    (currentTime : String) (store : Store) :
    ((recordQuizAttempt (some userId) userId quizId courseId score timeTaken
        completed currentTime store).status = 400
      ↔ (quizId = "" ∨ courseId = "" ∨ score = none))
    ∧ quizRequiredFieldsMissing (.str "q1") (.str "c1") (.num 0) = false
    ∧ quizRequiredFieldsMissing (.str "q1") (.str "c1") .null = false
    ∧ quizRequiredFieldsMissing (.str "") (.str "c1") (.num 50) = true
    ∧ quizRequiredFieldsMissing (.str "q1") (.str "") (.num 50) = true
    ∧ (score = some 0 → quizId ≠ "" → courseId ≠ "" →
        ∃ p, Store.get ((recordQuizAttempt (some userId) userId quizId
              courseId score timeTaken completed currentTime store).store)
              userId = some p
          ∧ p.quizAttempts.getLast?
              = some ⟨quizId, courseId, currentTime, 0, timeTaken,
                  completed.getD true⟩) := by
  refine ⟨?_, by decide, by decide, by decide, by decide, ?_⟩
  · cases score with
    | none => simp [recordQuizAttempt]
    | some sc =>
      by_cases h : quizId = "" ∨ courseId = ""
      · simp [recordQuizAttempt, h]
        try tauto
      · cases hget : store.get userId <;>
          simp [recordQuizAttempt, h, hget]
  · rintro rfl h1 h2
    cases hget : store.get userId with
    | none =>
      have hred : recordQuizAttempt (some userId) userId quizId courseId
          (some 0) timeTaken completed currentTime store
          = ⟨200,
              some ⟨userId, [],
                [⟨quizId, courseId, currentTime, 0, timeTaken,
                    completed.getD true⟩], [], currentTime⟩,
              store.save ⟨userId, [],
                [⟨quizId, courseId, currentTime, 0, timeTaken,
                    completed.getD true⟩], [], currentTime⟩, 1, 1⟩ := by
        simp [recordQuizAttempt, h1, h2, hget]
      rw [hred]
      exact ⟨_, Store.get_save_self rfl, rfl⟩
    | some prev =>
      have huid : prev.userId = userId := Store.get_userId hget
      have hred : recordQuizAttempt (some userId) userId quizId courseId
          (some 0) timeTaken completed currentTime store
          = ⟨200,
              some ({ prev with
                quizAttempts := prev.quizAttempts
                  ++ [⟨quizId, courseId, currentTime, 0, timeTaken,
                        completed.getD true⟩],
                lastActive := currentTime }),
              store.save ({ prev with
                quizAttempts := prev.quizAttempts
                  ++ [⟨quizId, courseId, currentTime, 0, timeTaken,
                        completed.getD true⟩],
                lastActive := currentTime }), 1, 1⟩ := by
        simp [recordQuizAttempt, h1, h2, hget]
      rw [hred]
      exact ⟨_, Store.get_save_self huid, by simp⟩

/-- Witness for C10: score 0 on the empty store is accepted and appended. -/
theorem claim_C10_quiz_validation_witness :
    ((recordQuizAttempt (some "u") "u" "q1" "c1" (some 0) none none "t1"
        ([] : Store)).status = 400
      ↔ (("q1" : String) = "" ∨ ("c1" : String) = ""
          ∨ (some (0 : ℚ)) = none))
    ∧ ∃ p, Store.get ((recordQuizAttempt (some "u") "u" "q1" "c1" (some 0)
          none none "t1" ([] : Store)).store) "u" = some p
        ∧ p.quizAttempts.getLast?
            = some ⟨"q1", "c1", "t1", 0, none, true⟩ :=
  ⟨(claim_C10_quiz_validation "u" "q1" "c1" (some 0) none none "t1" []).1,
    (claim_C10_quiz_validation "u" "q1" "c1" (some 0) none none "t1"
        []).2.2.2.2.2 rfl (by decide) (by decide)⟩

/-- C5: For every progress record, averageQuizScore equals the arithmetic
mean of the score fields over all quizAttempts when quizAttempts is
non-empty, and equals 0 when quizAttempts is empty; scores [80, 90, 100]
yield 90 and zero attempts yield 0. -/
theorem claim_C5_average_score (progress : StudentProgress) :
    (computeStats progress).averageQuizScore
      = (if progress.quizAttempts = [] then 0
          else (progress.quizAttempts.map (fun a => a.score)).sum
                / (progress.quizAttempts.length : ℚ))
    ∧ (computeStats ⟨"u", [],
        [⟨"q1", "c1", "t", 80, none, true⟩, ⟨"q2", "c1", "t", 90, none, true⟩,
          ⟨"q3", "c1", "t", 100, none, true⟩], [], "t"⟩).averageQuizScore = 90
    ∧ (computeStats ⟨"u", [], [], [], "t"⟩).averageQuizScore = 0 := by
  refine ⟨?_, ?_, ?_⟩
  · by_cases h : progress.quizAttempts = []
    · simp [computeStats, h]
    · have hlen : 0 < progress.quizAttempts.length := List.length_pos.mpr h
      simp [computeStats, h, hlen, foldl_add_score]
  · norm_num [computeStats]
  · norm_num [computeStats]

/-- C2 counterexample: `uniqueLessonsAccessed` joins the triple with ":"
into a single Set key, so the two distinct triples ("a:b","c","d") and
("a","b:c","d") produce the same key "a:b:c:d" and are counted once, while
the number of distinct triples is 2. -/
theorem claim_C2_counterexample :
    ¬ ((computeStats ⟨"u", [⟨"a:b", "c", "d", "t"⟩, ⟨"a", "b:c", "d", "t"⟩],
          [], [], "t"⟩).uniqueLessonsAccessed
        = specUniqueLessonTriples ⟨"u",
            [⟨"a:b", "c", "d", "t"⟩, ⟨"a", "b:c", "d", "t"⟩],
            [], [], "t"⟩) := by
  decide

/-- C2 (amended): for every progress record whose lessonAccessHistory has
colon-free courseId and sectionId values, uniqueLessonsAccessed equals the
number of distinct (courseId, sectionId, chapterId) triples occurring in
lessonAccessHistory. -/
theorem claim_C2_unique_lessons_amended (progress : StudentProgress)
    (h : colonFreeIds progress = true) :
    (computeStats progress).uniqueLessonsAccessed
      = specUniqueLessonTriples progress := by
  have hfree : ∀ a ∈ progress.lessonAccessHistory,
      ':' ∉ a.courseId.data ∧ ':' ∉ a.sectionId.data := by
    intro a ha
    unfold colonFreeIds at h
    have h2 := List.all_eq_true.mp h a ha
    simp only [Bool.and_eq_true, List.all_eq_true, bne_iff_ne, ne_eq] at h2
    exact ⟨fun hc => h2.1 ':' hc rfl, fun hc => h2.2 ':' hc rfl⟩
  show ((progress.lessonAccessHistory.map lessonKey).dedup).length
      = ((progress.lessonAccessHistory.map
          (fun a => (a.courseId, a.sectionId, a.chapterId))).dedup).length
  have hmm : progress.lessonAccessHistory.map lessonKey
      = (progress.lessonAccessHistory.map
          (fun a => (a.courseId, a.sectionId, a.chapterId))).map
          (fun t : String × String × String =>
            t.1 ++ ":" ++ t.2.1 ++ ":" ++ t.2.2) := by
    rw [List.map_map]
    rfl
  rw [hmm]
  apply dedup_length_map_of_injOn
  intro t1 ht1 t2 ht2 heq
  obtain ⟨a1, ha1, rfl⟩ := List.mem_map.mp ht1
  obtain ⟨a2, ha2, rfl⟩ := List.mem_map.mp ht2
  obtain ⟨e1, e2, e3⟩ := colon_join_inj (hfree a1 ha1).1 (hfree a1 ha1).2
    (hfree a2 ha2).1 (hfree a2 ha2).2 heq
  simp only at e3
  simp [e1, e2, e3]

/-- Witness for amended C2: two identical triples plus one distinct triple
(all colon-free) give a unique count of 2. -/
theorem claim_C2_unique_lessons_amended_witness :
    colonFreeIds ⟨"u", [⟨"c1", "s1", "ch1", "t"⟩, ⟨"c1", "s1", "ch1", "t"⟩,
        ⟨"c2", "s1", "ch1", "t"⟩], [], [], "t"⟩ = true
    ∧ (computeStats ⟨"u", [⟨"c1", "s1", "ch1", "t"⟩, ⟨"c1", "s1", "ch1", "t"⟩,
          ⟨"c2", "s1", "ch1", "t"⟩], [], [], "t"⟩).uniqueLessonsAccessed
        = specUniqueLessonTriples ⟨"u", [⟨"c1", "s1", "ch1", "t"⟩,
            ⟨"c1", "s1", "ch1", "t"⟩, ⟨"c2", "s1", "ch1", "t"⟩], [], [], "t"⟩
    ∧ (computeStats ⟨"u", [⟨"c1", "s1", "ch1", "t"⟩, ⟨"c1", "s1", "ch1", "t"⟩,
          ⟨"c2", "s1", "ch1", "t"⟩], [], [], "t"⟩).uniqueLessonsAccessed
        = 2 :=
  ⟨by decide,
    claim_C2_unique_lessons_amended ⟨"u", [⟨"c1", "s1", "ch1", "t"⟩,
      ⟨"c1", "s1", "ch1", "t"⟩, ⟨"c2", "s1", "ch1", "t"⟩], [], [], "t"⟩
      (by decide),
    by decide⟩

/-- C3 counterexample: with the single-occurrence courseIds "2" then "1",
`Object.entries` enumerates the integer-index keys in ascending numeric
order ("1" before "2"), so the stable count sort does not order the tie by
first appearance in lessonAccessHistory ("2" before "1"). -/
theorem claim_C3_counterexample :
    ¬ ((computeStats ⟨"u", [⟨"2", "s", "c", "t"⟩, ⟨"1", "s", "c", "t"⟩],
          [], [], "t"⟩).mostAccessedCourses
        = specMostAccessedCourses ⟨"u",
            [⟨"2", "s", "c", "t"⟩, ⟨"1", "s", "c", "t"⟩], [], [], "t"⟩) := by
  decide

/-- C3 (amended): for every progress record none of whose courseId values
is an ECMAScript array-index string, mostAccessedCourses lists the courseId
values ranked by descending access frequency, truncated to at most 5, with
equal-frequency ties ordered by first appearance in lessonAccessHistory;
over accesses [A, B, A, A, C, B] it ranks A (3) before B (2) before C (1). -/
theorem claim_C3_top_courses_amended (progress : StudentProgress)
    (h : nonIndexCourseIds progress = true) :
    (computeStats progress).mostAccessedCourses
      = specMostAccessedCourses progress
    ∧ (computeStats ⟨"u",
        [⟨"A", "s", "c", "t"⟩, ⟨"B", "s", "c", "t"⟩, ⟨"A", "s", "c", "t"⟩,
          ⟨"A", "s", "c", "t"⟩, ⟨"C", "s", "c", "t"⟩, ⟨"B", "s", "c", "t"⟩],
        [], [], "t"⟩).mostAccessedCourses
      = [⟨"A", 3⟩, ⟨"B", 2⟩, ⟨"C", 1⟩] := by
  constructor
  · have hkeys : ∀ v ∈ progress.lessonAccessHistory.map (fun a => a.courseId),
        isArrayIndexString v = false := by
      intro v hv
      obtain ⟨a, ha, rfl⟩ := List.mem_map.mp hv
      unfold nonIndexCourseIds at h
      have h2 := List.all_eq_true.mp h a ha
      simpa using h2
    show getTopItems progress.lessonAccessHistory (fun a => a.courseId) 5
        = specMostAccessedCourses progress
    rw [getTopItems_no_index _ _ _ hkeys]
    rfl
  · decide

/-- Witness for amended C3: the [A, B, A, A, C, B] access history. -/
theorem claim_C3_top_courses_amended_witness :
    nonIndexCourseIds ⟨"u",
        [⟨"A", "s", "c", "t"⟩, ⟨"B", "s", "c", "t"⟩, ⟨"A", "s", "c", "t"⟩,
          ⟨"A", "s", "c", "t"⟩, ⟨"C", "s", "c", "t"⟩, ⟨"B", "s", "c", "t"⟩],
        [], [], "t"⟩ = true
    ∧ ((computeStats ⟨"u",
          [⟨"A", "s", "c", "t"⟩, ⟨"B", "s", "c", "t"⟩, ⟨"A", "s", "c", "t"⟩,
            ⟨"A", "s", "c", "t"⟩, ⟨"C", "s", "c", "t"⟩, ⟨"B", "s", "c", "t"⟩],
          [], [], "t"⟩).mostAccessedCourses
        = specMostAccessedCourses ⟨"u",
            [⟨"A", "s", "c", "t"⟩, ⟨"B", "s", "c", "t"⟩, ⟨"A", "s", "c", "t"⟩,
              ⟨"A", "s", "c", "t"⟩, ⟨"C", "s", "c", "t"⟩,
              ⟨"B", "s", "c", "t"⟩], [], [], "t"⟩
      ∧ (computeStats ⟨"u",
          [⟨"A", "s", "c", "t"⟩, ⟨"B", "s", "c", "t"⟩, ⟨"A", "s", "c", "t"⟩,
            ⟨"A", "s", "c", "t"⟩, ⟨"C", "s", "c", "t"⟩, ⟨"B", "s", "c", "t"⟩],
          [], [], "t"⟩).mostAccessedCourses
        = [⟨"A", 3⟩, ⟨"B", 2⟩, ⟨"C", 1⟩]) :=
  ⟨by decide,
    claim_C3_top_courses_amended ⟨"u",
      [⟨"A", "s", "c", "t"⟩, ⟨"B", "s", "c", "t"⟩, ⟨"A", "s", "c", "t"⟩,
        ⟨"A", "s", "c", "t"⟩, ⟨"C", "s", "c", "t"⟩, ⟨"B", "s", "c", "t"⟩],
      [], [], "t"⟩ (by decide)⟩
